import Mathlib

/-!
Shallow embedding of the connection/session layer of the python-cloudfiles
repository (cloudfiles/connection.py, cloudfiles/storage_object.py,
freerange/connection.py, freerange/authentication.py, freerange/container.py).

The HTTP transport is modelled as an oracle `Nat → TOut` giving, for the
k-th request issued during one logical call, either a transport-level
exception (httplib.HTTPException raised from getresponse) or a response.
The authenticator collaborator is modelled as an oracle `Nat → CFAuthRes`
(its own module, cloudfiles/authentication.py, and utils.parse_url are not
part of the sources; the oracle yields the already-parsed url tuple and the
token, exactly the data `Connection._authenticate` destructures).
Every primitive transport operation performed by the embedded code is
recorded in an event trace, so that ordering claims (what was sent, with
which headers, and whether a response body was read before the next
request) are provable facts about the embedding.
-/

/-- Result of utils.parse_url: (host, port, uri-prefix, is_ssl). -/
structure ConnArgs where
  host : String
  port : Nat
  uri : String
  is_ssl : Bool
  deriving Repr, DecidableEq

/-- An httplib response as consumed by the client: status line, headers, body. -/
structure HTTPResponse where
  status : Nat
  reason : String
  headers : List (String × String)
  body : String
  deriving Repr, DecidableEq

/-- Outcome of issuing one request and calling getresponse on the transport. -/
inductive TOut where
  | exn
  | resp (r : HTTPResponse)
  deriving Repr, DecidableEq

/-- Result of one cloudfiles auth.authenticate() call, with the two urls
already run through parse_url: storage url args, optional cdn url args,
session token. -/
structure CFAuthRes where
  args : ConnArgs
  cdn : Option ConnArgs
  token : String
  deriving Repr, DecidableEq

/-- Observable primitive operations, in program order: a request issued on
the storage connection of generation `gen`, a request issued on the cdn
connection, one authenticator invocation, and a read() of a response body. -/
inductive Ev where
  | request (gen : Nat) (method : String) (path : String) (data : String)
      (headers : List (String × String))
  | cdnRequest (gen : Nat) (method : String) (path : String) (data : String)
      (headers : List (String × String))
  | auth
  | readBody (gen : Nat) (status : Nat)
  deriving Repr, DecidableEq

/-- True on body-read events. -/
def Ev.isRead : Ev → Bool
  | .readBody _ _ => true
  | _ => false

/-- True on storage-request events. -/
def Ev.isReq : Ev → Bool
  | .request _ _ _ _ _ => true
  | _ => false

/-- State of a cloudfiles Connection after construction.  `connGen` counts
how many times http_connect has run (each run discards the previous socket
and opens a fresh one), `cdnGen` likewise for cdn_connect, `authCount`
counts authenticator invocations. -/
structure Conn where
  token : String
  connection_args : ConnArgs
  uri : String
  connGen : Nat
  authCount : Nat
  cdn_enabled : Bool
  cdn_args : Option ConnArgs
  cdn_uri : String
  cdnGen : Nat
  deriving Repr, DecidableEq

/-- consts.user_agent. -/
def user_agent : String := "python-cloudfiles/1.2.0"

/-- consts.container_name_limit. -/
def container_name_limit : Nat := 256

/-- consts.object_name_limit. -/
def object_name_limit : Nat := 1024

/-- Python str.rstrip applied with the slash character. -/
def rstripSlash (s : String) : String :=
  String.mk ((s.toList.reverse.dropWhile (fun c => c = '/')).reverse)

/-- Hex digit used by percent-encoding (uppercase, as urllib.quote). -/
def hexDigit (n : Nat) : Char :=
  if n < 10 then Char.ofNat (48 + n) else Char.ofNat (55 + n)

/-- Model of urllib.quote on one character: letters, digits, underscore,
dot, dash and the default safe character slash pass through, everything
else is percent-encoded. -/
def quoteChar (c : Char) : String :=
  if c.isAlphanum ∨ c = '_' ∨ c = '.' ∨ c = '-' ∨ c = '/' then String.singleton c
  else "%" ++ String.mk [hexDigit (c.toNat / 16 % 16), hexDigit (c.toNat % 16)]

/-- Model of urllib.quote. -/
def pyquote (s : String) : String := String.join (s.toList.map quoteChar)

/-- Python dict assignment d[k] = v on an insertion-ordered association
list: replace the value of an existing key, else append. -/
def setA (l : List (String × String)) (k v : String) : List (String × String) :=
  if l.any (fun p => p.1 = k) then l.map (fun p => if p.1 = k then (k, v) else p)
  else l ++ [(k, v)]

/-- Python dict.update. -/
def updateA (l h : List (String × String)) : List (String × String) :=
  h.foldl (fun acc p => setA acc p.1 p.2) l

/-- Python str.lower on one ASCII character. -/
def lowerChar (c : Char) : Char :=
  if 65 ≤ c.toNat ∧ c.toNat ≤ 90 then Char.ofNat (c.toNat + 32) else c

/-- Python str.lower (ASCII model). -/
def lowerStr (s : String) : String := String.mk (s.toList.map lowerChar)

/-- Python's last-wins header-scanning loop: the value of the last header
whose name matches `key` case-insensitively, if any. -/
def extractLast (hs : List (String × String)) (key : String) : Option String :=
  hs.foldl (fun acc h => if lowerStr h.1 = key then some h.2 else acc) none

/-- try int(s) except ValueError: 0, as in the header-parsing loops. -/
def pyIntD (s : String) : Int := (s.toInt?).getD 0

/-- The request path built by Connection.make_request: the stored uri
stripped of trailing slashes, the percent-encoded segments, and an optional
query string. -/
def buildPath (uri : String) (segs : List String) (parms : List (String × String)) : String :=
  let p := "/" ++ rstripSlash uri ++ "/" ++ String.intercalate "/" (segs.map pyquote)
  if parms.isEmpty then p
  else p ++ "?" ++ String.intercalate "&"
    (parms.map (fun q => pyquote q.1 ++ "=" ++ pyquote q.2))

/-- The header dict built by Connection.make_request: defaults
Content-Length, User-Agent and X-Auth-Token, updated key-by-key with the
caller's headers. -/
def buildHeaders (token : String) (data : String) (hdrs : List (String × String)) :
    List (String × String) :=
  updateA [("Content-Length", toString data.length), ("User-Agent", user_agent),
           ("X-Auth-Token", token)] hdrs

/-- Connection.http_connect: re-reads host, port, uri, scheme from
connection_args and opens a fresh socket (a new connection generation). -/
def http_connect (st : Conn) : Conn :=
  { st with uri := st.connection_args.uri, connGen := st.connGen + 1 }

/-- Connection.cdn_connect: re-reads the cdn uri from cdn_args and opens a
fresh cdn socket.  (In the source cdn_args is always set before this runs;
the none branch is unreachable from the embedded entry points.) -/
def cdn_connect (st : Conn) : Conn :=
  match st.cdn_args with
  | some a => { st with cdn_uri := a.uri, cdnGen := st.cdnGen + 1 }
  | none => { st with cdnGen := st.cdnGen + 1 }

/-- Connection._authenticate: run the authenticator, store the token and
the parsed storage url, reconnect, and, when a cdn url was advertised,
enable cdn and connect to it as well. -/
def authenticateConn (auth : Nat → CFAuthRes) (st : Conn) : Conn :=
  let a := auth st.authCount
  let st1 : Conn := { st with token := a.token, connection_args := a.args,
                              authCount := st.authCount + 1 }
  let st2 := http_connect st1
  match a.cdn with
  | some cargs => cdn_connect { st2 with cdn_enabled := true, cdn_args := some cargs }
  | none => st2

/-- Connection.make_request.  Returns the response (or the propagated
transport exception), the final connection state, and the trace of
primitive operations.  `tp k` is the outcome of the k-th request issued
during this call.  Note that the path and headers are computed once, before
the first attempt, and that retry_request resends exactly those captured
values. -/
def make_request (tp : Nat → TOut) (auth : Nat → CFAuthRes) (st : Conn)
    (method : String) (pathSegs : List String) (data : String)
    (hdrs : List (String × String)) (parms : List (String × String)) :
    Except Unit HTTPResponse × Conn × List Ev :=
  let path := buildPath st.uri pathSegs parms
  let headers := buildHeaders st.token data hdrs
  let ev0 := Ev.request st.connGen method path data headers
  match tp 0 with
  | .exn =>
    let st1 := http_connect st
    let ev1 := Ev.request st1.connGen method path data headers
    match tp 1 with
    | .exn => (.error (), st1, [ev0, ev1])
    | .resp r =>
      if r.status = 401 then
        let st2 := authenticateConn auth st1
        let st3 := http_connect st2
        let ev2 := Ev.request st3.connGen method path data headers
        match tp 2 with
        | .exn => (.error (), st3, [ev0, ev1, Ev.auth, ev2])
        | .resp r2 => (.ok r2, st3, [ev0, ev1, Ev.auth, ev2])
      else (.ok r, st1, [ev0, ev1])
  | .resp r =>
    if r.status = 401 then
      let st1 := authenticateConn auth st
      let st2 := http_connect st1
      let ev1 := Ev.request st2.connGen method path data headers
      match tp 1 with
      | .exn => (.error (), st2, [ev0, Ev.auth, ev1])
      | .resp r2 => (.ok r2, st2, [ev0, Ev.auth, ev1])
    else (.ok r, st, [ev0])

/-- Domain errors raised by the cloudfiles resource operations. -/
inductive CFErr where
  | httpException
  | cdnNotEnabled
  | valueError
  | responseError (status : Nat) (reason : String)
  | invalidContainerName (name : String)
  | noSuchContainer (name : String)
  | containerNotEmpty (name : String)
  deriving Repr, DecidableEq

/-- Connection.cdn_request: the cdn mirror of make_request (no query
parameters; fails fast with CDNNotEnabled; reconnects via cdn_connect; the
same single transport-failure retry and single 401 re-authentication
retry, again resending the initially captured path and headers). -/
def cdn_request (ctp : Nat → TOut) (auth : Nat → CFAuthRes) (st : Conn)
    (method : String) (pathSegs : List String) (data : String)
    (hdrs : List (String × String)) :
    Except CFErr HTTPResponse × Conn × List Ev :=
  if st.cdn_enabled = false then (.error .cdnNotEnabled, st, [])
  else
    let path := "/" ++ rstripSlash st.cdn_uri ++ "/" ++
      String.intercalate "/" (pathSegs.map pyquote)
    let headers := buildHeaders st.token data hdrs
    let ev0 := Ev.cdnRequest st.cdnGen method path data headers
    match ctp 0 with
    | .exn =>
      let st1 := cdn_connect st
      let ev1 := Ev.cdnRequest st1.cdnGen method path data headers
      match ctp 1 with
      | .exn => (.error .httpException, st1, [ev0, ev1])
      | .resp r =>
        if r.status = 401 then
          let st2 := authenticateConn auth st1
          let st3 := cdn_connect st2
          let ev2 := Ev.cdnRequest st3.cdnGen method path data headers
          match ctp 2 with
          | .exn => (.error .httpException, st3, [ev0, ev1, Ev.auth, ev2])
          | .resp r2 => (.ok r2, st3, [ev0, ev1, Ev.auth, ev2])
        else (.ok r, st1, [ev0, ev1])
    | .resp r =>
      if r.status = 401 then
        let st1 := authenticateConn auth st
        let st2 := cdn_connect st1
        let ev1 := Ev.cdnRequest st2.cdnGen method path data headers
        match ctp 1 with
        | .exn => (.error .httpException, st2, [ev0, Ev.auth, ev1])
        | .resp r2 => (.ok r2, st2, [ev0, Ev.auth, ev1])
      else (.ok r, st, [ev0])

/-- The attributes of a cloudfiles Container object relevant here. -/
structure ContainerRec where
  name : String
  object_count : Option Int
  size_used : Option Int
  cdn_uri : Option String
  cdn_ttl : Option Int
  deriving Repr, DecidableEq

/-- The header loop of Container._fetch_cdn_data: x-cdn-uri is stored, and
int() is applied to each x-ttl value with no try guard, so an unparsable
ttl raises ValueError. -/
def fetchCdnParse (hs : List (String × String)) :
    Except CFErr (Option String × Option Int) :=
  hs.foldlM (fun (acc : Option String × Option Int) h =>
    if lowerStr h.1 = "x-cdn-uri" then .ok (some h.2, acc.2)
    else if lowerStr h.1 = "x-ttl" then
      match h.2.toInt? with
      | some t => .ok (acc.1, some t)
      | none => .error .valueError
    else .ok acc) (none, none)

/-- Container.__init__ as invoked by the connection-level factories: the
name setter rejects names containing a slash or longer than
container_name_limit, then _fetch_cdn_data runs when the connection has
cdn enabled (a HEAD on the cdn channel, tolerating non-2xx statuses). -/
def mkContainer (ctp : Nat → TOut) (auth : Nat → CFAuthRes) (st : Conn)
    (name : String) (count size : Option Int) (tr : List Ev) :
    Except CFErr ContainerRec × Conn × List Ev :=
  if name.toList.contains '/' ∨ container_name_limit < name.length then
    (.error (.invalidContainerName name), st, tr)
  else if st.cdn_enabled then
    match cdn_request ctp auth st "HEAD" [name] "" [] with
    | (.error e, st', ctr) => (.error e, st', tr ++ ctr)
    | (.ok cr, st', ctr) =>
      if 200 ≤ cr.status ∧ cr.status < 300 then
        match fetchCdnParse cr.headers with
        | .error e => (.error e, st', tr ++ ctr)
        | .ok (curi, cttl) =>
          (.ok { name := name, object_count := count, size_used := size,
                 cdn_uri := curi, cdn_ttl := cttl }, st', tr ++ ctr)
      else
        (.ok { name := name, object_count := count, size_used := size,
               cdn_uri := none, cdn_ttl := none }, st', tr ++ ctr)
  else
    (.ok { name := name, object_count := count, size_used := size,
           cdn_uri := none, cdn_ttl := none }, st, tr)

/-- Connection.get_info: HEAD on the account, scan the headers for the
container count and byte total (int() failures coerced to 0), read the
body, then raise ResponseError outside 200-299. -/
def get_info (tp : Nat → TOut) (auth : Nat → CFAuthRes) (st : Conn) :
    Except CFErr (Option Int × Option Int) × Conn × List Ev :=
  match make_request tp auth st "HEAD" [] "" [] [] with
  | (.error _, st', tr) => (.error .httpException, st', tr)
  | (.ok r, st', tr) =>
    let count := r.headers.foldl (fun acc h =>
      if lowerStr h.1 = "x-account-container-count" then some (pyIntD h.2) else acc) none
    let size := r.headers.foldl (fun acc h =>
      if lowerStr h.1 = "x-account-bytes-used" then some (pyIntD h.2) else acc) none
    let tr := tr ++ [Ev.readBody st'.connGen r.status]
    if r.status < 200 ∨ 299 < r.status then
      (.error (.responseError r.status r.reason), st', tr)
    else (.ok (count, size), st', tr)

/-- Connection.create_container: reject empty or slash-containing names
before any request, PUT the container, read the body, raise ResponseError
outside 200-299, and build the Container.  `tp` drives the storage
transport, `ctp` the cdn transport used by Container._fetch_cdn_data. -/
def create_container (tp ctp : Nat → TOut) (auth : Nat → CFAuthRes) (st : Conn)
    (name : String) : Except CFErr ContainerRec × Conn × List Ev :=
  if name = "" ∨ name.toList.contains '/' then (.error (.invalidContainerName name), st, [])
  else match make_request tp auth st "PUT" [name] "" [] [] with
  | (.error _, st', tr) => (.error .httpException, st', tr)
  | (.ok r, st', tr) =>
    let tr := tr ++ [Ev.readBody st'.connGen r.status]
    if r.status < 200 ∨ 299 < r.status then
      (.error (.responseError r.status r.reason), st', tr)
    else mkContainer ctp auth st' name none none tr

/-- Connection.delete_container: reject empty or slash-containing names
before any request, DELETE the container, read the body, map 409 to
ContainerNotEmpty, raise ResponseError outside 200-299, then mirror the
delete on the cdn channel when cdn is enabled (that cdn response is
ignored and its body never read). -/
def delete_container (tp ctp : Nat → TOut) (auth : Nat → CFAuthRes) (st : Conn)
    (name : String) : Except CFErr Unit × Conn × List Ev :=
  if name = "" ∨ name.toList.contains '/' then (.error (.invalidContainerName name), st, [])
  else match make_request tp auth st "DELETE" [name] "" [] [] with
  | (.error _, st', tr) => (.error .httpException, st', tr)
  | (.ok r, st', tr) =>
    let tr := tr ++ [Ev.readBody st'.connGen r.status]
    if r.status = 409 then (.error (.containerNotEmpty name), st', tr)
    else if r.status < 200 ∨ 299 < r.status then
      (.error (.responseError r.status r.reason), st', tr)
    else if st'.cdn_enabled then
      match cdn_request ctp auth st' "DELETE" [name] "" [] with
      | (.error e, st2, ctr) => (.error e, st2, tr ++ ctr)
      | (.ok _, st2, ctr) => (.ok (), st2, tr ++ ctr)
    else (.ok (), st', tr)

/-- Connection.get_container: reject empty or slash-containing names
before any request, HEAD the container, scan the headers for object count
and bytes used (int() failures coerced to 0), read the body, map 404 to
NoSuchContainer, raise ResponseError outside 200-299, and build the
Container. -/
def get_container (tp ctp : Nat → TOut) (auth : Nat → CFAuthRes) (st : Conn)
    (name : String) : Except CFErr ContainerRec × Conn × List Ev :=
  if name = "" ∨ name.toList.contains '/' then (.error (.invalidContainerName name), st, [])
  else match make_request tp auth st "HEAD" [name] "" [] [] with
  | (.error _, st', tr) => (.error .httpException, st', tr)
  | (.ok r, st', tr) =>
    let count := r.headers.foldl (fun acc h =>
      if lowerStr h.1 = "x-container-object-count" then some (pyIntD h.2) else acc) none
    let size := r.headers.foldl (fun acc h =>
      if lowerStr h.1 = "x-container-bytes-used" then some (pyIntD h.2) else acc) none
    let tr := tr ++ [Ev.readBody st'.connGen r.status]
    if r.status = 404 then (.error (.noSuchContainer name), st', tr)
    else if r.status < 200 ∨ 299 < r.status then
      (.error (.responseError r.status r.reason), st', tr)
    else mkContainer ctp auth st' name count size tr

@[simp]
lemma http_connect_connGen (st : Conn) : (http_connect st).connGen = st.connGen + 1 := rfl

@[simp]
lemma http_connect_authCount (st : Conn) : (http_connect st).authCount = st.authCount := rfl

@[simp]
lemma http_connect_token (st : Conn) : (http_connect st).token = st.token := rfl

@[simp]
lemma http_connect_connection_args (st : Conn) :
    (http_connect st).connection_args = st.connection_args := rfl

@[simp]
lemma cdn_connect_connGen (st : Conn) : (cdn_connect st).connGen = st.connGen := by
  unfold cdn_connect; cases st.cdn_args <;> rfl

@[simp]
lemma cdn_connect_authCount (st : Conn) : (cdn_connect st).authCount = st.authCount := by
  unfold cdn_connect; cases st.cdn_args <;> rfl

@[simp]
lemma authenticateConn_connGen (auth : Nat → CFAuthRes) (st : Conn) :
    (authenticateConn auth st).connGen = st.connGen + 1 := by
  unfold authenticateConn
  rcases h : (auth st.authCount).cdn with _ | c <;> simp [h]

@[simp]
lemma authenticateConn_authCount (auth : Nat → CFAuthRes) (st : Conn) :
    (authenticateConn auth st).authCount = st.authCount + 1 := by
  unfold authenticateConn
  rcases h : (auth st.authCount).cdn with _ | c <;> simp [h]

/-- Over every possible transport behaviour, one make_request call runs
the authenticator at most once. -/
lemma make_request_authCount_le (tp : Nat → TOut) (auth : Nat → CFAuthRes)
    (st : Conn) (m : String) (p : List String) (d : String)
    (h q : List (String × String)) :
    ((make_request tp auth st m p d h q).2.1).authCount ≤ st.authCount + 1 := by
  rcases h0 : tp 0 with _ | r
  · rcases h1 : tp 1 with _ | r
    · simp [make_request, h0, h1]
    · by_cases hs : r.status = 401
      · rcases h2 : tp 2 with _ | r2 <;> simp [make_request, h0, h1, h2, hs]
      · simp [make_request, h0, h1, hs]
  · by_cases hs : r.status = 401
    · rcases h1 : tp 1 with _ | r2 <;> simp [make_request, h0, h1, hs]
    · simp [make_request, h0, hs]

/-- C1: when the first response of a make_request call is a 401, the
Session re-authenticates exactly once (authCount goes up by one) and
retries the captured request exactly once; whatever response the retry
produces — 200 or a second 401 — is returned as a value, never raised; and
over all transport behaviours a call never re-authenticates more than
once. -/
theorem make_request_reauth_once
    (tp : Nat → TOut) (auth : Nat → CFAuthRes) (st : Conn)
    (method : String) (pathSegs : List String) (data : String)
    (hdrs parms : List (String × String)) (r0 r1 : HTTPResponse)
    (h0 : tp 0 = .resp r0) (h401 : r0.status = 401) (h1 : tp 1 = .resp r1) :
    make_request tp auth st method pathSegs data hdrs parms =
      (.ok r1, http_connect (authenticateConn auth st),
       [Ev.request st.connGen method (buildPath st.uri pathSegs parms) data
          (buildHeaders st.token data hdrs),
        Ev.auth,
        Ev.request (st.connGen + 2) method (buildPath st.uri pathSegs parms) data
          (buildHeaders st.token data hdrs)]) ∧
    (http_connect (authenticateConn auth st)).authCount = st.authCount + 1 ∧
    ∀ (tp' : Nat → TOut) (auth' : Nat → CFAuthRes) (st' : Conn) (m' : String)
      (p' : List String) (d' : String) (h' q' : List (String × String)),
      ((make_request tp' auth' st' m' p' d' h' q').2.1).authCount ≤ st'.authCount + 1 := by
  refine ⟨?_, by simp, fun tp' auth' st' m' p' d' h' q' =>
    make_request_authCount_le tp' auth' st' m' p' d' h' q'⟩
  simp [make_request, h0, h1, h401]

theorem make_request_reauth_once_witness :
    make_request (fun n => if n = 0 then .resp ⟨401, "Unauthorized", [], ""⟩
        else .resp ⟨200, "Ok", [], ""⟩)
      (fun _ => ⟨⟨"h2", 443, "v1/acct2", true⟩, none, "tok1"⟩)
      ⟨"tok0", ⟨"h", 80, "v1/acct", false⟩, "v1/acct", 1, 1, false, none, "", 0⟩
      "GET" ["c1"] "" [] [] =
      (.ok ⟨200, "Ok", [], ""⟩,
       http_connect (authenticateConn
         (fun _ => ⟨⟨"h2", 443, "v1/acct2", true⟩, none, "tok1"⟩)
         ⟨"tok0", ⟨"h", 80, "v1/acct", false⟩, "v1/acct", 1, 1, false, none, "", 0⟩),
       [Ev.request 1 "GET" (buildPath "v1/acct" ["c1"] []) ""
          (buildHeaders "tok0" "" []),
        Ev.auth,
        Ev.request 3 "GET" (buildPath "v1/acct" ["c1"] []) ""
          (buildHeaders "tok0" "" [])]) ∧
    (http_connect (authenticateConn
       (fun _ => ⟨⟨"h2", 443, "v1/acct2", true⟩, none, "tok1"⟩)
       ⟨"tok0", ⟨"h", 80, "v1/acct", false⟩, "v1/acct", 1, 1, false, none, "", 0⟩)).authCount
      = 1 + 1 ∧
    ∀ (tp' : Nat → TOut) (auth' : Nat → CFAuthRes) (st' : Conn) (m' : String)
      (p' : List String) (d' : String) (h' q' : List (String × String)),
      ((make_request tp' auth' st' m' p' d' h' q').2.1).authCount ≤ st'.authCount + 1 :=
  make_request_reauth_once _ _ _ _ _ _ _ _ _ _ rfl rfl rfl

/-- C2: when reading the first response raises a transport error, the
Session reopens the transport against the same host and port (the stored
connection args, the token and the auth counter are untouched) and
reissues the identical captured request once on the fresh connection; a
response other than 401 on that retry is returned, while a second
transport error is not retried again and propagates to the caller. -/
theorem make_request_transport_retry
    (tp : Nat → TOut) (auth : Nat → CFAuthRes) (st : Conn)
    (method : String) (pathSegs : List String) (data : String)
    (hdrs parms : List (String × String)) (h0 : tp 0 = .exn) :
    (∀ r1, tp 1 = .resp r1 → r1.status ≠ 401 →
      make_request tp auth st method pathSegs data hdrs parms =
        (.ok r1, http_connect st,
         [Ev.request st.connGen method (buildPath st.uri pathSegs parms) data
            (buildHeaders st.token data hdrs),
          Ev.request (st.connGen + 1) method (buildPath st.uri pathSegs parms) data
            (buildHeaders st.token data hdrs)]) ∧
      (http_connect st).connection_args = st.connection_args ∧
      (http_connect st).token = st.token ∧
      (http_connect st).authCount = st.authCount) ∧
    (tp 1 = .exn →
      make_request tp auth st method pathSegs data hdrs parms =
        (.error (), http_connect st,
         [Ev.request st.connGen method (buildPath st.uri pathSegs parms) data
            (buildHeaders st.token data hdrs),
          Ev.request (st.connGen + 1) method (buildPath st.uri pathSegs parms) data
            (buildHeaders st.token data hdrs)])) := by
  constructor
  · intro r1 h1 hs
    refine ⟨?_, rfl, rfl, rfl⟩
    simp [make_request, h0, h1, hs]
  · intro h1
    simp [make_request, h0, h1]

theorem make_request_transport_retry_witness :
    let tpw : Nat → TOut := fun n => if n = 0 then .exn else .resp ⟨200, "Ok", [], ""⟩
    let authw : Nat → CFAuthRes := fun _ => ⟨⟨"h2", 443, "v1/acct2", true⟩, none, "tok1"⟩
    let stw : Conn := ⟨"tok0", ⟨"h", 80, "v1/acct", false⟩, "v1/acct", 1, 1, false, none, "", 0⟩
    (∀ r1, tpw 1 = .resp r1 → r1.status ≠ 401 →
      make_request tpw authw stw "GET" ["c1"] "" [] [] =
        (.ok r1, http_connect stw,
         [Ev.request stw.connGen "GET" (buildPath stw.uri ["c1"] []) ""
            (buildHeaders stw.token "" []),
          Ev.request (stw.connGen + 1) "GET" (buildPath stw.uri ["c1"] []) ""
            (buildHeaders stw.token "" [])]) ∧
      (http_connect stw).connection_args = stw.connection_args ∧
      (http_connect stw).token = stw.token ∧
      (http_connect stw).authCount = stw.authCount) ∧
    (tpw 1 = .exn →
      make_request tpw authw stw "GET" ["c1"] "" [] [] =
        (.error (), http_connect stw,
         [Ev.request stw.connGen "GET" (buildPath stw.uri ["c1"] []) ""
            (buildHeaders stw.token "" []),
          Ev.request (stw.connGen + 1) "GET" (buildPath stw.uri ["c1"] []) ""
            (buildHeaders stw.token "" [])])) := by
  intro tpw authw stw
  exact make_request_transport_retry tpw authw stw "GET" ["c1"] "" [] [] rfl

/-- C5: a make_request call whose first attempt yields a response other
than 401 returns that response with the Session state literally unchanged:
token, host, port, uri base prefix, TLS flag, connection generation and
auth counter are all exactly as before the call. -/
theorem make_request_success_frame
    (tp : Nat → TOut) (auth : Nat → CFAuthRes) (st : Conn)
    (method : String) (pathSegs : List String) (data : String)
    (hdrs parms : List (String × String)) (r0 : HTTPResponse)
    (h0 : tp 0 = .resp r0) (hs : r0.status ≠ 401) :
    make_request tp auth st method pathSegs data hdrs parms =
      (.ok r0, st,
       [Ev.request st.connGen method (buildPath st.uri pathSegs parms) data
          (buildHeaders st.token data hdrs)]) := by
  simp [make_request, h0, hs]

theorem make_request_success_frame_witness :
    make_request (fun _ => .resp ⟨204, "No Content", [], ""⟩)
      (fun _ => ⟨⟨"h2", 443, "v1/acct2", true⟩, none, "tok1"⟩)
      ⟨"tok0", ⟨"h", 80, "v1/acct", false⟩, "v1/acct", 1, 1, false, none, "", 0⟩
      "PUT" ["c1"] "" [] [] =
      (.ok ⟨204, "No Content", [], ""⟩,
       ⟨"tok0", ⟨"h", 80, "v1/acct", false⟩, "v1/acct", 1, 1, false, none, "", 0⟩,
       [Ev.request 1 "PUT" (buildPath "v1/acct" ["c1"] []) ""
          (buildHeaders "tok0" "" [])]) :=
  make_request_success_frame _ _ _ _ _ _ _ _ _ rfl (by decide)

/-- Connection state before a call that will hit a 401: token `oldtok`,
uri prefix `v1`. -/
def stBug : Conn := ⟨"oldtok", ⟨"h1", 80, "v1", false⟩, "v1", 1, 0, false, none, "", 0⟩

/-- Authenticator that rotates both the token and the base url. -/
def authBug : Nat → CFAuthRes := fun _ => ⟨⟨"h2", 443, "v2", false⟩, none, "newtok"⟩

/-- Transport returning 401 on the first attempt and 200 on the retry. -/
def tpBug : Nat → TOut :=
  fun n => if n = 0 then .resp ⟨401, "Unauthorized", [], ""⟩ else .resp ⟨200, "Ok", [], ""⟩

/-- C3: after the 401 triggers re-authentication, the session state holds
the newly issued token `newtok` and the new prefix `v2`, but the retried
wire request still carries the X-Auth-Token header and path captured
before the first attempt (`oldtok`, `/v1/...`): retry_request resends the
closed-over `path` and `headers` values, which _authenticate does not
rebuild. -/
theorem make_request_retry_resends_stale_token :
    (make_request tpBug authBug stBug "GET" ["c1"] "" [] []).2.1.token = "newtok" ∧
    (make_request tpBug authBug stBug "GET" ["c1"] "" [] []).2.1.uri = "v2" ∧
    (make_request tpBug authBug stBug "GET" ["c1"] "" [] []).2.2 =
      [Ev.request 1 "GET" "/v1/c1" ""
         [("Content-Length", "0"), ("User-Agent", user_agent),
          ("X-Auth-Token", "oldtok")],
       Ev.auth,
       Ev.request 3 "GET" "/v1/c1" ""
         [("Content-Length", "0"), ("User-Agent", user_agent),
          ("X-Auth-Token", "oldtok")]] := by
  exact ⟨rfl, rfl, rfl⟩

/-- C4 counterexample: in the run of the previous theorem the first
response is a 401 and a retry request is then issued, yet the trace
contains no body read at all — the 401 response's body is not drained
before the re-authenticated retry; the code abandons the old connection
instead. -/
theorem make_request_401_body_not_drained :
    let res := make_request tpBug authBug stBug "GET" ["c1"] "" [] []
    res.1 = .ok ⟨200, "Ok", [], ""⟩ ∧
    res.2.2.countP Ev.isRead = 0 ∧ res.2.2.countP Ev.isReq = 2 := by
  exact ⟨rfl, rfl, rfl⟩

/-- Connection generations of the storage requests in a trace, in order. -/
def reqGens (tr : List Ev) : List Nat :=
  tr.filterMap (fun e => match e with
    | .request g _ _ _ _ => some g
    | _ => none)

/-- make_request itself never reads a response body, and each successive
request it issues goes out on a strictly newer connection generation, so
no request is ever issued on a connection holding an undrained body. -/
lemma make_request_no_read (tp : Nat → TOut) (auth : Nat → CFAuthRes) (st : Conn)
    (m : String) (p : List String) (d : String) (h q : List (String × String)) :
    ((make_request tp auth st m p d h q).2.2).countP Ev.isRead = 0 ∧
    List.Chain' (· < ·) (reqGens (make_request tp auth st m p d h q).2.2) := by
  rcases h0 : tp 0 with _ | r
  · rcases h1 : tp 1 with _ | r
    · simp [make_request, h0, h1, reqGens, Ev.isRead]
    · by_cases hs : r.status = 401
      · rcases h2 : tp 2 with _ | r2 <;>
          simp [make_request, h0, h1, h2, hs, reqGens, Ev.isRead]
      · simp [make_request, h0, h1, hs, reqGens, Ev.isRead]
  · by_cases hs : r.status = 401
    · rcases h1 : tp 1 with _ | r2 <;>
        simp [make_request, h0, h1, hs, reqGens, Ev.isRead] <;> omega
    · simp [make_request, h0, hs, reqGens, Ev.isRead]

/-- Container construction only ever appends events to the trace it is
handed. -/
lemma mkContainer_trace (ctp : Nat → TOut) (auth : Nat → CFAuthRes) (st : Conn)
    (name : String) (count size : Option Int) (tr : List Ev) :
    ∃ rest, (mkContainer ctp auth st name count size tr).2.2 = tr ++ rest := by
  unfold mkContainer
  split
  · exact ⟨[], by simp⟩
  · split
    · rcases hc : cdn_request ctp auth st "HEAD" [name] "" [] with ⟨res, st', ctr⟩
      rcases res with e | cr
      · exact ⟨ctr, by simp [hc]⟩
      · refine ⟨ctr, ?_⟩
        simp only [hc]
        split
        · rcases hp : fetchCdnParse cr.headers with e | ⟨cu, ct⟩ <;> simp [hp]
        · simp
    · exact ⟨[], by simp⟩

lemma create_container_reads (tp ctp : Nat → TOut) (auth : Nat → CFAuthRes)
    (st : Conn) (name : String) (r : HTTPResponse) (st' : Conn) (mtr : List Ev)
    (hm : make_request tp auth st "PUT" [name] "" [] [] = (.ok r, st', mtr))
    (hv : ¬(name = "" ∨ name.toList.contains '/')) :
    ∃ rest, (create_container tp ctp auth st name).2.2 =
      mtr ++ Ev.readBody st'.connGen r.status :: rest := by
  unfold create_container
  rw [if_neg hv, hm]
  by_cases hs : r.status < 200 ∨ 299 < r.status
  · exact ⟨[], by simp [hs]⟩
  · obtain ⟨rest, hr⟩ := mkContainer_trace ctp auth st' name none none
      (mtr ++ [Ev.readBody st'.connGen r.status])
    exact ⟨rest, by simp only [hs, if_false]; rw [hr]; simp⟩

lemma delete_container_reads (tp ctp : Nat → TOut) (auth : Nat → CFAuthRes)
    (st : Conn) (name : String) (r : HTTPResponse) (st' : Conn) (mtr : List Ev)
    (hm : make_request tp auth st "DELETE" [name] "" [] [] = (.ok r, st', mtr))
    (hv : ¬(name = "" ∨ name.toList.contains '/')) :
    ∃ rest, (delete_container tp ctp auth st name).2.2 =
      mtr ++ Ev.readBody st'.connGen r.status :: rest := by
  unfold delete_container
  rw [if_neg hv, hm]
  by_cases h9 : r.status = 409
  · exact ⟨[], by simp [h9]⟩
  · by_cases hs : r.status < 200 ∨ 299 < r.status
    · exact ⟨[], by simp [h9, hs]⟩
    · by_cases hc : st'.cdn_enabled
      · rcases hcr : cdn_request ctp auth st' "DELETE" [name] "" [] with ⟨res, st2, ctr⟩
        rcases res with e | cr
        · exact ⟨ctr, by simp [h9, hs, hc, hcr]⟩
        · exact ⟨ctr, by simp [h9, hs, hc, hcr]⟩
      · exact ⟨[], by simp [h9, hs, hc]⟩

lemma get_container_reads (tp ctp : Nat → TOut) (auth : Nat → CFAuthRes)
    (st : Conn) (name : String) (r : HTTPResponse) (st' : Conn) (mtr : List Ev)
    (hm : make_request tp auth st "HEAD" [name] "" [] [] = (.ok r, st', mtr))
    (hv : ¬(name = "" ∨ name.toList.contains '/')) :
    ∃ rest, (get_container tp ctp auth st name).2.2 =
      mtr ++ Ev.readBody st'.connGen r.status :: rest := by
  unfold get_container
  rw [if_neg hv, hm]
  by_cases h4 : r.status = 404
  · exact ⟨[], by simp [h4]⟩
  · by_cases hs : r.status < 200 ∨ 299 < r.status
    · exact ⟨[], by simp [h4, hs]⟩
    · obtain ⟨rest, hr⟩ := mkContainer_trace ctp auth st' name
        (r.headers.foldl (fun acc h =>
          if lowerStr h.1 = "x-container-object-count" then some (pyIntD h.2) else acc) none)
        (r.headers.foldl (fun acc h =>
          if lowerStr h.1 = "x-container-bytes-used" then some (pyIntD h.2) else acc) none)
        (mtr ++ [Ev.readBody st'.connGen r.status])
      exact ⟨rest, by simp only [h4, hs, if_false]; rw [hr]; simp⟩

lemma get_info_reads (tp : Nat → TOut) (auth : Nat → CFAuthRes)
    (st : Conn) (r : HTTPResponse) (st' : Conn) (mtr : List Ev)
    (hm : make_request tp auth st "HEAD" [] "" [] [] = (.ok r, st', mtr)) :
    ∃ rest, (get_info tp auth st).2.2 =
      mtr ++ Ev.readBody st'.connGen r.status :: rest := by
  unfold get_info
  rw [hm]
  by_cases hs : r.status < 200 ∨ 299 < r.status
  · exact ⟨[], by simp [hs]⟩
  · exact ⟨[], by simp [hs]⟩

/-- C4 (amended): make_request never drains a response body — on a 401 the
retry goes out on a freshly opened connection (each successive request in
a trace is on a strictly larger generation), so no request is issued on a
connection with an undrained body — and every resource operation reads the
response body immediately after make_request returns, before any
ResponseError or domain error is raised. -/
theorem drain_discipline :
    (∀ (tp : Nat → TOut) (auth : Nat → CFAuthRes) (st : Conn) (m : String)
       (p : List String) (d : String) (h q : List (String × String)),
      ((make_request tp auth st m p d h q).2.2).countP Ev.isRead = 0 ∧
      List.Chain' (· < ·) (reqGens (make_request tp auth st m p d h q).2.2)) ∧
    (∀ (tp ctp : Nat → TOut) (auth : Nat → CFAuthRes) (st : Conn) (name : String)
       (r : HTTPResponse) (st' : Conn) (mtr : List Ev),
      make_request tp auth st "PUT" [name] "" [] [] = (.ok r, st', mtr) →
      ¬(name = "" ∨ name.toList.contains '/') →
      ∃ rest, (create_container tp ctp auth st name).2.2 =
        mtr ++ Ev.readBody st'.connGen r.status :: rest) ∧
    (∀ (tp ctp : Nat → TOut) (auth : Nat → CFAuthRes) (st : Conn) (name : String)
       (r : HTTPResponse) (st' : Conn) (mtr : List Ev),
      make_request tp auth st "DELETE" [name] "" [] [] = (.ok r, st', mtr) →
      ¬(name = "" ∨ name.toList.contains '/') →
      ∃ rest, (delete_container tp ctp auth st name).2.2 =
        mtr ++ Ev.readBody st'.connGen r.status :: rest) ∧
    (∀ (tp ctp : Nat → TOut) (auth : Nat → CFAuthRes) (st : Conn) (name : String)
       (r : HTTPResponse) (st' : Conn) (mtr : List Ev),
      make_request tp auth st "HEAD" [name] "" [] [] = (.ok r, st', mtr) →
      ¬(name = "" ∨ name.toList.contains '/') →
      ∃ rest, (get_container tp ctp auth st name).2.2 =
        mtr ++ Ev.readBody st'.connGen r.status :: rest) ∧
    (∀ (tp : Nat → TOut) (auth : Nat → CFAuthRes) (st : Conn)
       (r : HTTPResponse) (st' : Conn) (mtr : List Ev),
      make_request tp auth st "HEAD" [] "" [] [] = (.ok r, st', mtr) →
      ∃ rest, (get_info tp auth st).2.2 =
        mtr ++ Ev.readBody st'.connGen r.status :: rest) :=
  ⟨make_request_no_read, create_container_reads, delete_container_reads,
   get_container_reads, get_info_reads⟩

/-- Fixture for the drain witness: an authenticated connection. -/
def stW : Conn := ⟨"tokW", ⟨"hW", 80, "vW", false⟩, "vW", 1, 0, false, none, "", 0⟩

/-- Fixture authenticator. -/
def authW : Nat → CFAuthRes := fun _ => ⟨⟨"hW2", 443, "vW2", true⟩, none, "tokW2"⟩

/-- Fixture transport that always answers 204. -/
def tpW : Nat → TOut := fun _ => .resp ⟨204, "No Content", [], ""⟩

theorem drain_discipline_witness :
    (((make_request tpW authW stW "GET" [] "" [] []).2.2).countP Ev.isRead = 0 ∧
      List.Chain' (· < ·) (reqGens (make_request tpW authW stW "GET" [] "" [] []).2.2)) ∧
    (∃ rest, (create_container tpW tpW authW stW "c1").2.2 =
      [Ev.request 1 "PUT" (buildPath "vW" ["c1"] []) "" (buildHeaders "tokW" "" [])] ++
        Ev.readBody 1 204 :: rest) ∧
    (∃ rest, (delete_container tpW tpW authW stW "c1").2.2 =
      [Ev.request 1 "DELETE" (buildPath "vW" ["c1"] []) "" (buildHeaders "tokW" "" [])] ++
        Ev.readBody 1 204 :: rest) ∧
    (∃ rest, (get_container tpW tpW authW stW "c1").2.2 =
      [Ev.request 1 "HEAD" (buildPath "vW" ["c1"] []) "" (buildHeaders "tokW" "" [])] ++
        Ev.readBody 1 204 :: rest) ∧
    (∃ rest, (get_info tpW authW stW).2.2 =
      [Ev.request 1 "HEAD" (buildPath "vW" [] []) "" (buildHeaders "tokW" "" [])] ++
        Ev.readBody 1 204 :: rest) := by
  refine ⟨drain_discipline.1 tpW authW stW "GET" [] "" [] [],
    drain_discipline.2.1 tpW tpW authW stW "c1" ⟨204, "No Content", [], ""⟩ stW _ rfl
      (by decide),
    drain_discipline.2.2.1 tpW tpW authW stW "c1" ⟨204, "No Content", [], ""⟩ stW _ rfl
      (by decide),
    drain_discipline.2.2.2.1 tpW tpW authW stW "c1" ⟨204, "No Content", [], ""⟩ stW _ rfl
      (by decide),
    drain_discipline.2.2.2.2 tpW authW stW ⟨204, "No Content", [], ""⟩ stW _ rfl⟩

/-- The failures freerange Authentication.authenticate can raise. -/
inductive AuthFailure where
  | authenticationFailed
  | responseError (status : Nat) (reason : String)
  | authenticationError (msg : String)
  deriving Repr, DecidableEq

/-- Python truthiness of the header-scan result: None and the empty string
are falsy. -/
def pyTruthy : Option String → Bool
  | none => false
  | some s => s ≠ ""

/-- freerange Authentication.authenticate, as a function of the response
the auth endpoint returned (the body is drained first, then: 401 means
AuthenticationFailed, any other non-204 status means ResponseError, a 204
yields the last case-insensitive x-storage-url / x-storage-token header
values, which must both be truthy or AuthenticationError is raised). -/
def fr_authenticate (resp : HTTPResponse) : Except AuthFailure (String × String) :=
  if resp.status = 401 then .error .authenticationFailed
  else if resp.status ≠ 204 then .error (.responseError resp.status resp.reason)
  else
    let storage_url := extractLast resp.headers "x-storage-url"
    let storage_token := extractLast resp.headers "x-storage-token"
    if pyTruthy storage_token ∧ pyTruthy storage_url then
      .ok (storage_url.getD "", storage_token.getD "")
    else .error (.authenticationError "Invalid response from the authentication service.")

/-- C6 counterexample: a 204 response in which both required headers are
present — x-storage-url with an empty value, x-storage-token with a
non-empty one — raises AuthenticationError instead of returning the pair,
because the code tests Python truthiness of the extracted values, not
header presence. -/
theorem fr_authenticate_present_empty_header :
    fr_authenticate ⟨204, "No Content",
        [("X-Storage-Url", ""), ("X-Storage-Token", "tok")], ""⟩ =
      .error (.authenticationError "Invalid response from the authentication service.") ∧
    ([("X-Storage-Url", ""), ("X-Storage-Token", "tok")] :
        List (String × String)).any (fun h => lowerStr h.1 = "x-storage-url") = true ∧
    ([("X-Storage-Url", ""), ("X-Storage-Token", "tok")] :
        List (String × String)).any (fun h => lowerStr h.1 = "x-storage-token") = true := by
  exact ⟨rfl, rfl, rfl⟩

/-- C6 (amended): authenticate raises AuthenticationFailed exactly when
the status is 401; raises ResponseError with the status and reason for
every other non-204 status; for a 204 whose last x-storage-url and
x-storage-token header values (matched case-insensitively) are both
non-empty, returns exactly that (url, token) pair; and for a 204 whose
extracted url or token is absent or empty, raises AuthenticationError. -/
theorem fr_authenticate_cases (resp : HTTPResponse) :
    (fr_authenticate resp = .error .authenticationFailed ↔ resp.status = 401) ∧
    (resp.status ≠ 401 → resp.status ≠ 204 →
      fr_authenticate resp = .error (.responseError resp.status resp.reason)) ∧
    (∀ u t, resp.status = 204 →
      extractLast resp.headers "x-storage-url" = some u → u ≠ "" →
      extractLast resp.headers "x-storage-token" = some t → t ≠ "" →
      fr_authenticate resp = .ok (u, t)) ∧
    (resp.status = 204 →
      pyTruthy (extractLast resp.headers "x-storage-url") = false ∨
        pyTruthy (extractLast resp.headers "x-storage-token") = false →
      fr_authenticate resp =
        .error (.authenticationError "Invalid response from the authentication service.")) := by
  refine ⟨?_, ?_, ?_, ?_⟩
  · constructor
    · intro h
      by_contra h401
      by_cases h204 : resp.status = 204
      · simp [fr_authenticate, h401, h204] at h
        split at h <;> simp at h
      · simp [fr_authenticate, h401, h204] at h
    · intro h401
      simp [fr_authenticate, h401]
  · intro h401 h204
    simp [fr_authenticate, h401, h204]
  · intro u t h204 hu hune ht htne
    simp [fr_authenticate, h204, hu, ht, pyTruthy, hune, htne]
  · intro h204 hfalse
    have h401 : resp.status ≠ 401 := by omega
    rcases hfalse with hf | hf <;> simp [fr_authenticate, h204, h401, hf]

theorem fr_authenticate_cases_witness :
    fr_authenticate ⟨401, "Unauthorized", [], ""⟩ = .error .authenticationFailed ∧
    fr_authenticate ⟨500, "Err", [], ""⟩ = .error (.responseError 500 "Err") ∧
    fr_authenticate ⟨204, "No Content",
        [("X-Storage-Url", "u1"), ("X-Storage-Token", "t1")], ""⟩ = .ok ("u1", "t1") ∧
    fr_authenticate ⟨204, "No Content", [], ""⟩ =
      .error (.authenticationError "Invalid response from the authentication service.") :=
  ⟨(fr_authenticate_cases _).1.mpr rfl,
   (fr_authenticate_cases _).2.1 (by decide) (by decide),
   (fr_authenticate_cases _).2.2.1 "u1" "t1" rfl rfl (by decide) rfl (by decide),
   (fr_authenticate_cases _).2.2.2 rfl (Or.inl rfl)⟩

/-- Successive results of data.read(n) in Object.write: the data split
into n-byte chunks (the final empty read ends the loop and is not
listed). -/
def chunkRead (n : Nat) (l : List Char) : List (List Char) :=
  if hln : l = [] ∨ n = 0 then [] else l.take n :: chunkRead n (l.drop n)
termination_by l.length
decreasing_by
  push_neg at hln
  have hl : 0 < l.length := List.length_pos.mpr hln.1
  simp only [List.length_drop]
  omega

/-- The send loop of Object.write, returning the list of callback
invocations: after http.send(buff) the NEXT chunk is read, `transfered` is
increased by that next chunk's length, and only then is the callback
invoked with (transfered, size). -/
def writeLoop : List (List Char) → Nat → Nat → List (Nat × Nat)
  | [], _, _ => []
  | _ :: rest, transfered, size =>
    let t := transfered + (match rest with | [] => 0 | c :: _ => c.length)
    (t, size) :: writeLoop rest t size

/-- Callback invocations produced by Object.write on the given data. -/
def write_callback_trace (data : List Char) : List (Nat × Nat) :=
  writeLoop (chunkRead 4096 data) 0 data.length

/-- Modelled from the spec: the callback invocations the claim describes —
after the k-th chunk is sent, (cumulative bytes sent through chunk k,
total size). -/
def claimed_callback_aux : List (List Char) → Nat → Nat → List (Nat × Nat)
  | [], _, _ => []
  | c :: rest, t, size => (t + c.length, size) :: claimed_callback_aux rest (t + c.length) size

/-- Modelled from the spec: cumulative callback trace for Object.write. -/
def claimed_callback_trace (data : List Char) : List (Nat × Nat) :=
  claimed_callback_aux (chunkRead 4096 data) 0 data.length

lemma chunkRead_repl5000 :
    chunkRead 4096 (List.replicate 5000 'a') =
      [List.replicate 4096 'a', List.replicate 904 'a'] := by
  rw [chunkRead]
  simp only [List.take_replicate, List.drop_replicate]
  norm_num
  rw [chunkRead]
  simp only [List.take_replicate, List.drop_replicate]
  norm_num
  rw [chunkRead]
  simp

/-- C7: on a 5000-byte upload (chunks of 4096 and 904 bytes) the code's
callback receives (904, 5000) after the first chunk and again (904, 5000)
after the second, while the documented behaviour — bytes sent so far —
would be (4096, 5000) then (5000, 5000): write increments `transfered` by
the length of the freshly read NEXT chunk, not the chunk just sent. -/
theorem write_callback_trace_bug :
    write_callback_trace (List.replicate 5000 'a') = [(904, 5000), (904, 5000)] ∧
    claimed_callback_trace (List.replicate 5000 'a') = [(4096, 5000), (5000, 5000)] ∧
    write_callback_trace (List.replicate 5000 'a') ≠
      claimed_callback_trace (List.replicate 5000 'a') := by
  have h1 : write_callback_trace (List.replicate 5000 'a') = [(904, 5000), (904, 5000)] := by
    unfold write_callback_trace
    rw [chunkRead_repl5000]
    simp only [writeLoop, List.length_replicate]
  have h2 : claimed_callback_trace (List.replicate 5000 'a') =
      [(4096, 5000), (5000, 5000)] := by
    unfold claimed_callback_trace
    rw [chunkRead_repl5000]
    simp only [claimed_callback_aux, List.length_replicate]
  exact ⟨h1, h2, by rw [h1, h2]; decide⟩

/-- Errors Object.send can raise. -/
inductive ObjErr where
  | invalidObjectName (name : String)
  | invalidObjectSize
  | incompleteSend
  | responseError (status : Nat) (reason : String)
  deriving Repr, DecidableEq

/-- Object.send: after the name length check and the size-is-an-int check
(size none models a non-int size attribute), every chunk yielded by the
generator is sent and counted; if the total falls short of the declared
size, IncompleteSend is raised before getresponse is ever called (the
response argument is not consulted); otherwise the response is read,
non-2xx statuses raise ResponseError, and the server's last etag header
(scanned case-insensitively) is adopted. -/
def object_send (name : String) (size : Option Int) (chunks : List (List Char))
    (resp : HTTPResponse) : Except ObjErr (Option String) :=
  if object_name_limit < name.length then .error (.invalidObjectName name)
  else match size with
  | none => .error .invalidObjectSize
  | some sz =>
    let transferred : Nat := (chunks.map List.length).sum
    if (transferred : Int) < sz then .error .incompleteSend
    else if resp.status < 200 ∨ 299 < resp.status then
      .error (.responseError resp.status resp.reason)
    else .ok (extractLast resp.headers "etag")

/-- C8: whenever the data source yields fewer total bytes than the
declared size, Object.send raises IncompleteSend — uniformly in the
response, i.e. without completing the request — rather than finishing with
a short body. -/
theorem object_send_short_raises_incomplete
    (name : String) (chunks : List (List Char)) (resp : HTTPResponse) (sz : Int)
    (hname : name.length ≤ object_name_limit)
    (hshort : ((chunks.map List.length).sum : Int) < sz) :
    object_send name (some sz) chunks resp = .error .incompleteSend := by
  unfold object_send
  rw [if_neg (by omega)]
  exact if_pos hshort

theorem object_send_short_raises_incomplete_witness :
    ("o1" : String).length ≤ object_name_limit ∧
    ((([['a', 'b', 'c']] : List (List Char)).map List.length).sum : Int) < 5 ∧
    object_send "o1" (some 5) [['a', 'b', 'c']] ⟨201, "Created", [], ""⟩ =
      .error .incompleteSend :=
  ⟨by decide, by decide,
   object_send_short_raises_incomplete "o1" [['a', 'b', 'c']]
     ⟨201, "Created", [], ""⟩ 5 (by decide) (by decide)⟩

/-- State of a freerange Connection (no cdn channel in this variant). -/
structure FRConn where
  token : String
  connection_args : ConnArgs
  uri : String
  connGen : Nat
  authCount : Nat
  deriving Repr, DecidableEq

/-- freerange Connection.http_connect. -/
def fr_http_connect (st : FRConn) : FRConn :=
  { st with uri := st.connection_args.uri, connGen := st.connGen + 1 }

/-- freerange Connection._authenticate: two-tuple authenticator (parsed
url args and token), then http_connect. -/
def fr_authenticateConn (auth : Nat → ConnArgs × String) (st : FRConn) : FRConn :=
  let a := auth st.authCount
  fr_http_connect { st with token := a.2, connection_args := a.1,
                            authCount := st.authCount + 1 }

/-- freerange make_request headers: same defaults but the token header is
named X-Storage-Token. -/
def fr_buildHeaders (token : String) (data : String) (hdrs : List (String × String)) :
    List (String × String) :=
  updateA [("Content-Length", toString data.length), ("User-Agent", user_agent),
           ("X-Storage-Token", token)] hdrs

/-- freerange Connection.make_request: identical retry structure to the
cloudfiles variant. -/
def fr_make_request (tp : Nat → TOut) (auth : Nat → ConnArgs × String) (st : FRConn)
    (method : String) (pathSegs : List String) (data : String)
    (hdrs : List (String × String)) (parms : List (String × String)) :
    Except Unit HTTPResponse × FRConn × List Ev :=
  let path := buildPath st.uri pathSegs parms
  let headers := fr_buildHeaders st.token data hdrs
  let ev0 := Ev.request st.connGen method path data headers
  match tp 0 with
  | .exn =>
    let st1 := fr_http_connect st
    let ev1 := Ev.request st1.connGen method path data headers
    match tp 1 with
    | .exn => (.error (), st1, [ev0, ev1])
    | .resp r =>
      if r.status = 401 then
        let st2 := fr_authenticateConn auth st1
        let st3 := fr_http_connect st2
        let ev2 := Ev.request st3.connGen method path data headers
        match tp 2 with
        | .exn => (.error (), st3, [ev0, ev1, Ev.auth, ev2])
        | .resp r2 => (.ok r2, st3, [ev0, ev1, Ev.auth, ev2])
      else (.ok r, st1, [ev0, ev1])
  | .resp r =>
    if r.status = 401 then
      let st1 := fr_authenticateConn auth st
      let st2 := fr_http_connect st1
      let ev1 := Ev.request st2.connGen method path data headers
      match tp 1 with
      | .exn => (.error (), st2, [ev0, Ev.auth, ev1])
      | .resp r2 => (.ok r2, st2, [ev0, Ev.auth, ev1])
    else (.ok r, st, [ev0])

/-- freerange Connection.create_container: NO name validation before the
request — the PUT is issued for any name, the body is read, non-2xx raises
ResponseError, and only then does Container's name setter reject names
containing a slash (names that are merely empty pass entirely). -/
def fr_create_container (tp : Nat → TOut) (auth : Nat → ConnArgs × String)
    (st : FRConn) (name : String) : Except CFErr String × FRConn × List Ev :=
  match fr_make_request tp auth st "PUT" [name] "" [] [] with
  | (.error _, st', tr) => (.error .httpException, st', tr)
  | (.ok r, st', tr) =>
    let tr := tr ++ [Ev.readBody st'.connGen r.status]
    if r.status < 200 ∨ 299 < r.status then
      (.error (.responseError r.status r.reason), st', tr)
    else if name.toList.contains '/' then (.error (.invalidContainerName name), st', tr)
    else (.ok name, st', tr)

/-- freerange fixture connection. -/
def frW : FRConn := ⟨"ftok", ⟨"fh", 80, "fv1", false⟩, "fv1", 1, 0⟩

/-- freerange fixture authenticator. -/
def frAuthW : Nat → ConnArgs × String := fun _ => (⟨"fh2", 80, "fv2", false⟩, "ftok2")

/-- Fixture transport answering 201 Created. -/
def tpCreated : Nat → TOut := fun _ => .resp ⟨201, "Created", [], ""⟩

/-- C9 counterexample: in the freerange variant, create_container with the
empty container name issues a PUT on the transport and succeeds — no
InvalidContainerName is raised, before or after the request. -/
theorem fr_create_container_skips_validation :
    let res := fr_create_container tpCreated frAuthW frW ""
    res.1 = .ok "" ∧
    res.2.2.countP Ev.isReq = 1 ∧
    res.2.2 = [Ev.request 1 "PUT" "/fv1/" "" (fr_buildHeaders "ftok" "" []),
               Ev.readBody 1 201] := by
  exact ⟨rfl, rfl, rfl⟩

/-- C9 (amended): in the cloudfiles variant, create_container,
delete_container and get_container all reject an empty or slash-containing
name with InvalidContainerName before any request — the trace is empty and
the state untouched; the freerange variant performs no such pre-request
validation (see the counterexample: an empty name is sent to the server,
and a slash-containing name is rejected only after the request, by the
Container constructor). -/
theorem cf_validate_before_request (tp ctp : Nat → TOut) (auth : Nat → CFAuthRes)
    (st : Conn) (name : String) (h : name = "" ∨ name.toList.contains '/') :
    create_container tp ctp auth st name = (.error (.invalidContainerName name), st, []) ∧
    delete_container tp ctp auth st name = (.error (.invalidContainerName name), st, []) ∧
    get_container tp ctp auth st name = (.error (.invalidContainerName name), st, []) := by
  refine ⟨?_, ?_, ?_⟩
  · unfold create_container
    rw [if_pos h]
  · unfold delete_container
    rw [if_pos h]
  · unfold get_container
    rw [if_pos h]

theorem cf_validate_before_request_witness :
    create_container tpW tpW authW stW "" = (.error (.invalidContainerName ""), stW, []) ∧
    delete_container tpW tpW authW stW "" = (.error (.invalidContainerName ""), stW, []) ∧
    get_container tpW tpW authW stW "" = (.error (.invalidContainerName ""), stW, []) :=
  cf_validate_before_request tpW tpW authW stW "" (Or.inl rfl)

/-- The session fields of a cloudfiles Connection with their
pre-authentication None placeholders representable: the connection fields
hold some generation number once a socket is open. -/
structure InitConn where
  token : Option String
  connection : Option Nat
  cdn_connection : Option Nat
  connection_args : Option ConnArgs
  cdn_args : Option ConnArgs
  cdn_enabled : Bool
  deriving Repr, DecidableEq

/-- Connection.__init__: all session fields start as the unauthenticated
placeholders (None/False), then _authenticate runs before __init__
returns.  An authenticator failure propagates out of the constructor; a
success stores the token and parsed storage url, opens the storage
connection, and, when a cdn url was advertised, enables and connects the
cdn channel. -/
def connection_init (a : Except AuthFailure CFAuthRes) : Except AuthFailure InitConn :=
  let st0 : InitConn := ⟨none, none, none, none, none, false⟩
  match a with
  | .error e => .error e
  | .ok r =>
    .ok { st0 with token := some r.token, connection_args := some r.args,
                   connection := some 1,
                   cdn_enabled := r.cdn.isSome, cdn_args := r.cdn,
                   cdn_connection := r.cdn.map fun _ => 1 }

/-- C10: every Connection that the constructor actually returns is already
authenticated — its token and its open storage connection are set — and
when the authenticator fails the constructor itself fails, so no
Connection is ever observable in the unauthenticated state. -/
theorem connection_init_authenticated :
    (∀ (a : Except AuthFailure CFAuthRes) (st : InitConn),
      connection_init a = .ok st → st.token.isSome ∧ st.connection.isSome) ∧
    (∀ e, connection_init (.error e) = .error e) := by
  constructor
  · intro a st h
    rcases a with e | r
    · simp [connection_init] at h
    · simp only [connection_init] at h
      injection h with h2
      rw [← h2]
      exact ⟨rfl, rfl⟩
  · intro e
    rfl

theorem connection_init_authenticated_witness :
    connection_init (.ok ⟨⟨"ih", 80, "iv", false⟩, none, "itok"⟩) =
      .ok ⟨some "itok", some 1, none, some ⟨"ih", 80, "iv", false⟩, none, false⟩ ∧
    ((⟨some "itok", some 1, none, some ⟨"ih", 80, "iv", false⟩, none, false⟩ :
        InitConn).token.isSome ∧
      (⟨some "itok", some 1, none, some ⟨"ih", 80, "iv", false⟩, none, false⟩ :
        InitConn).connection.isSome) ∧
    connection_init (.error .authenticationFailed) = .error .authenticationFailed :=
  ⟨rfl,
   connection_init_authenticated.1 (.ok ⟨⟨"ih", 80, "iv", false⟩, none, "itok"⟩) _ rfl,
   connection_init_authenticated.2 .authenticationFailed⟩
